import Mathlib

/-!
Shallow embedding of the fink-filters repository: the score-free early
kilonova filter (filter_early_kn_candidates/filter.py), the
classifier-score kilonova filter (filter_kn_candidates/filter.py), the
early supernova filter (filter_early_sn_candidates/filter.py) and the
microlensing filter (filter_microlensing_candidates/filter.py), together
with the message routing of the two kilonova filters.

External numeric collaborators (the dc_mag apparent-magnitude correction
from fink_science, the astropy angular separation, the coarse
search_around_sky query, the galactic latitude transform, and the wall
clock) are modelled as oracle parameters bundled in the Astro and Env
structures; everything else follows the python source.  Missing values
(numpy NaN in the photometric history) are modelled as Option; a python
exception is modelled by an Option-valued run returning none.
-/

/-- Oracles for the external astropy and fink_science numeric routines.
dc_mag takes fid, magpsf, sigmapsf, magnr, sigmagnr, magzpsci, isdiffpos
and returns the corrected magnitude together with its error; sepRad gives
the angular separation in radians between two sky positions in degrees;
within2deg is the coarse search_around_sky membership test at 2 degrees;
log10 is the decimal logarithm; galLatDeg is the galactic latitude
transform from equatorial coordinates. -/
structure Astro where
  dc_mag : ℤ → ℚ → ℚ → ℚ → ℚ → ℚ → String → ℚ × ℚ
  sepRad : ℚ → ℚ → ℚ → ℚ → ℚ
  within2deg : ℚ → ℚ → ℚ → ℚ → Bool
  log10 : ℚ → ℚ
  galLatDeg : ℚ → ℚ → ℚ

/-- Process environment as the filters read it: which webhook environment
variables are configured, and the UTC iso weekday of the wall clock at
dispatch time (Monday is 1, Sunday is 7; Friday is 5). -/
structure Env where
  KNWEBHOOK : Bool
  KNWEBHOOK_FINK : Bool
  KNWEBHOOK_AMA_GALAXIES : Bool
  KNWEBHOOK_DWF : Bool
  utcIsoWeekday : ℕ
deriving DecidableEq

/-- One row of the mangrove galaxy catalog (data/mangrove_filtered.csv):
columns ra, dec, lum_dist, dist_err, ang_dist, stellarmass, galaxy_idx and
the 2MASS external name. -/
structure GalaxyEntry where
  ra : ℚ
  dec : ℚ
  lum_dist : ℚ
  dist_err : ℚ
  ang_dist : ℚ
  stellarmass : ℚ
  galaxy_idx : ℤ
  twoMASS_name : String
deriving DecidableEq

/-- One alert as received by early_kn_candidates: the scalar fields of the
udf signature.  Numeric fields are taken after the astype coercions of the
source. -/
structure EKAlert where
  objectId : String
  drb : ℚ
  classtar : ℚ
  jd : ℚ
  jdstarthist : ℚ
  ndethist : ℚ
  cdsxmatch : String
  fid : ℤ
  magpsf : ℚ
  sigmapsf : ℚ
  magnr : ℚ
  sigmagnr : ℚ
  magzpsci : ℚ
  isdiffpos : String
  ra : ℚ
  dec : ℚ
  roid : ℤ
  field : ℤ
deriving DecidableEq

/-- The sixteen SIMBAD galaxy-type labels shared by all three filters. -/
def list_simbad_galaxies : List String :=
  ["galaxy", "Galaxy", "EmG", "Seyfert", "Seyfert_1", "Seyfert_2",
   "BlueCompG", "StarburstG", "LSB_G", "HII_G", "High_z_G", "GinPair",
   "GinGroup", "BClG", "GinCl", "PartofG"]

/-- Cross-match allow-list of the two kilonova filters. -/
def keep_cds : List String :=
  ["Unknown", "Transient", "Fail"] ++ list_simbad_galaxies

/-- Predicate chain of early_kn_candidates (filter.py lines 94 to 97 and
137 to 138): f_kn before the cross-match stage. -/
def earlyKnPredicate (a : EKAlert) : Bool :=
  decide (a.drb > 0.5) && decide (a.classtar > 0.4) &&
  decide (a.jd - a.jdstarthist < 0.25) &&
  decide (a.cdsxmatch ∈ keep_cds) && decide (a.roid ≠ 3)

/-- Corrected (DC) magnitude of one alert, line 125 of the early filter:
first component of the external dc_mag call on the raw photometric
fields. -/
def ekMag (astro : Astro) (a : EKAlert) : ℚ :=
  (astro.dc_mag a.fid a.magpsf a.sigmapsf a.magnr a.sigmagnr a.magzpsci
    a.isdiffpos).1

/-- Catalog entries within the coarse two-degree radius of a position, in
catalog iteration order, paired with their positional index: the
search_around_sky query of lines 160 to 163 restricted to one alert. -/
def nearbyIdx (astro : Astro) (catalog : List GalaxyEntry) (ra dec : ℚ) :
    List (ℕ × GalaxyEntry) :=
  catalog.enum.filter (fun p => astro.within2deg ra dec p.2.ra p.2.dec)

/-- Tight acceptance test of lines 173 to 184: separation in radians below
0.01 divided by the angular-diameter distance of the entry, and absolute
magnitude strictly between -17 and -15, with
abs_mag = mag - 25 - 5 * log10(lum_dist). -/
def accept (astro : Astro) (mag ra dec : ℚ) (g : GalaxyEntry) : Bool :=
  decide (astro.sepRad ra dec g.ra g.dec < 0.01 / g.ang_dist) &&
  decide (mag - 25 - 5 * astro.log10 g.lum_dist > -17) &&
  decide (mag - 25 - 5 * astro.log10 g.lum_dist < -15)

/-- Host selection of lines 186 to 203: the first entry of the coarse
query result that passes the acceptance test (candidates_number[0][0]). -/
def crossMatch (astro : Astro) (catalog : List GalaxyEntry)
    (mag ra dec : ℚ) : Option (ℕ × GalaxyEntry) :=
  (nearbyIdx astro catalog ra dec).find? (fun p => accept astro mag ra dec p.2)

/-- Final verdict for one alert of the early filter: predicate chain and
cross-match acceptance (line 205 writes the matching flags back into
f_kn). -/
def earlyKnVerdict (astro : Astro) (catalog : List GalaxyEntry)
    (a : EKAlert) : Bool :=
  earlyKnPredicate a && (crossMatch astro catalog (ekMag astro a) a.ra a.dec).isSome

/-- Host data saved for an accepted candidate (lines 189 to 199): host
index in the catalog, absolute magnitude, host-alert separation in
radians. -/
def earlyKnHostData (astro : Astro) (catalog : List GalaxyEntry)
    (mag ra dec : ℚ) : Option (ℕ × ℚ × ℚ) :=
  (crossMatch astro catalog mag ra dec).map
    (fun p => (p.1, mag - 25 - 5 * astro.log10 p.2.lum_dist,
      astro.sepRad ra dec p.2.ra p.2.dec))

/-- Outbound channels of the two kilonova filters. -/
inductive Channel where
  | KNWEBHOOK
  | KNWEBHOOK_FINK
  | AMA_GALAXIES
  | DWF
deriving DecidableEq

/-- One dispatched message: the channel it went to and the positional
index of the alert it reports. -/
structure Message where
  channel : Channel
  alertIdx : ℕ
deriving DecidableEq

/-- Allow-list of ZTF field numbers of the DWF channel (line 360). -/
def dwf_ztf_fields : List ℤ := [1525, 530, 482, 1476, 388, 1433]

/-- Messages dispatched for one final-accepted candidate of the early
filter (lines 317 to 373): the two standard channels when configured, the
amateur channel under its latitude, magnitude, Friday and configuration
gate, and the DWF channel under its field-membership gate. -/
def earlyKnMessagesFor (astro : Astro) (env : Env) (i : ℕ) (a : EKAlert) :
    List Message :=
  (if env.KNWEBHOOK then [Message.mk Channel.KNWEBHOOK i] else []) ++
  (if env.KNWEBHOOK_FINK then [Message.mk Channel.KNWEBHOOK_FINK i] else []) ++
  (if decide (|astro.galLatDeg a.ra a.dec| > 20) &&
      decide (ekMag astro a < 20) &&
      decide (env.utcIsoWeekday = 5) && env.KNWEBHOOK_AMA_GALAXIES
    then [Message.mk Channel.AMA_GALAXIES i] else []) ++
  (if decide (a.field ∈ dwf_ztf_fields) && env.KNWEBHOOK_DWF
    then [Message.mk Channel.DWF i] else [])

/-- Result of one batch of the early filter: verdict vector, dispatched
messages, and how many times the mangrove catalog file was read during
the batch. -/
structure EKResult where
  verdict : List Bool
  messages : List Message
  catalogLoads : ℕ
deriving DecidableEq

/-- Full batch run of early_kn_candidates.  none models a python
exception: the magnitude unpacking of line 125 raises on an empty batch,
and the dict_filt lookup of line 245 raises when a final candidate has a
filter id outside the g and r bands.  The catalog is read (catalogLoads)
only when some alert passes the predicate chain (line 140). -/
def early_kn_candidates (astro : Astro) (env : Env)
    (catalog : List GalaxyEntry) (batch : List EKAlert) : Option EKResult :=
  if batch.isEmpty then none
  else
    let pre := batch.map earlyKnPredicate
    if pre.any id then
      let candidates := batch.enum.filter
        (fun p => earlyKnVerdict astro catalog p.2)
      if candidates.all (fun p => p.2.fid == 1 || p.2.fid == 2) then
        some ⟨batch.map (earlyKnVerdict astro catalog),
          candidates.flatMap (fun p => earlyKnMessagesFor astro env p.1 p.2), 1⟩
      else none
    else some ⟨pre, [], 0⟩

/-- One row of the time-ordered photometric history of an alert of
kn_candidates: the aligned entries of the cjd, cfid, cmagpsf, csigmapsf,
cmagnr, csigmagnr, cmagzpsci and cisdiffpos array columns.  cmagpsf is
Option because Spark casts missing history photometry to NaN. -/
structure HistEntry where
  jd : ℚ
  fid : ℤ
  magpsf : Option ℚ
  sigmapsf : ℚ
  magnr : ℚ
  sigmagnr : ℚ
  magzpsci : ℚ
  isdiffpos : String
deriving DecidableEq

/-- One alert as received by kn_candidates: scalar fields plus the
photometric history. -/
structure KNAlert where
  objectId : String
  knscore : ℚ
  rfscore : ℚ
  snn_snia_vs_nonia : ℚ
  snn_sn_vs_all : ℚ
  drb : ℚ
  classtar : ℚ
  jdstarthist : ℚ
  ndethist : ℚ
  cdsxmatch : String
  ra : ℚ
  dec : ℚ
  hist : List HistEntry
deriving DecidableEq

/-- Predicate chain of kn_candidates (filter.py lines 77 to 106); jd is
the last element of the cjd history, extracted at line 74. -/
def knPredicate (a : KNAlert) (jd : ℚ) : Bool :=
  decide (a.knscore > 0.5) && decide (a.drb > 0.5) &&
  decide (a.classtar > 0.4) && decide (jd - a.jdstarthist < 20) &&
  decide (a.ndethist < 20) && decide (a.cdsxmatch ∈ keep_cds)

/-- History entries with non-missing photometry, each paired with its
magpsf value: the maskNotNone selection of line 143. -/
def maskNotNone (hist : List HistEntry) : List (ℚ × HistEntry) :=
  hist.filterMap (fun h => h.magpsf.map (fun m => (m, h)))

/-- Last and second-to-last elements of a list, or none when the list has
fewer than two elements: the [-1] and [-2] accesses of line 152. -/
def lastTwo {α : Type} (l : List α) : Option (α × α) :=
  match l.reverse with
  | a :: b :: _ => some (a, b)
  | _ => none

/-- Per-band enrichment of lines 159 to 188 for one band: corrected
magnitude history over the non-missing same-band entries, last magnitude
and error, and the rate between the two most recent measurements when at
least two exist.  none models the unpacking exception raised when the
band has no non-missing measurement. -/
def bandData (astro : Astro) (masked : List (ℚ × HistEntry)) (filt : ℤ) :
    Option (ℚ × ℚ × Option ℚ) := do
  let bl := masked.filter (fun p => p.2.fid == filt)
  let magErrHist := bl.map (fun p =>
    astro.dc_mag p.2.fid p.1 p.2.sigmapsf p.2.magnr p.2.sigmagnr
      p.2.magzpsci p.2.isdiffpos)
  let lastPair ← magErrHist.getLast?
  let rate : Option ℚ :=
    match magErrHist.reverse, (bl.map (fun p => p.2.jd)).reverse with
    | mlast :: mprev :: _, jlast :: jprev :: _ =>
        some ((mlast.1 - mprev.1) / (jlast - jprev))
    | _, _ => none
  pure (lastPair.1, lastPair.2, rate)

/-- Quantities derived for one accepted candidate of kn_candidates:
time since last detection, and per band the last corrected magnitude,
its error, and the photometric rate (none models the NaN
initialisation of line 146 when fewer than two same-band measurements
exist). -/
structure EnrichedKN where
  delta_jd_last : ℚ
  mag1 : ℚ
  err_mag1 : ℚ
  rate1 : Option ℚ
  mag2 : ℚ
  err_mag2 : ℚ
  rate2 : Option ℚ
deriving DecidableEq

/-- Enrichment of lines 142 to 203 for one accepted candidate.  none
models a python exception: the [-2] access of line 152 raises when fewer
than two history entries have non-missing photometry, the per-band
unpacking raises when a band has no non-missing measurement, and the
dict_filt lookup of line 203 raises when the last filter id is outside
the g and r bands. -/
def knEnrichOne (astro : Astro) (a : KNAlert) (lastFid : ℤ) :
    Option EnrichedKN := do
  let masked := maskNotNone a.hist
  let jds ← lastTwo (masked.map (fun p => p.2.jd))
  let band1 ← bandData astro masked 1
  let band2 ← bandData astro masked 2
  if lastFid == 1 || lastFid == 2 then
    pure ⟨jds.1 - jds.2, band1.1, band1.2.1, band1.2.2,
      band2.1, band2.2.1, band2.2.2⟩
  else none

/-- Sequential effectful map: applies f left to right and fails at the
first failure, the way a python loop raises at its first bad element. -/
def optionTraverse {α β : Type} (f : α → Option β) : List α → Option (List β)
  | [] => some []
  | a :: t => do
    let b ← f a
    let bs ← optionTraverse f t
    pure (b :: bs)

/-- Full batch run of kn_candidates.  Lines 74 and 75 extract the last
history elements of every alert before any predicate is evaluated, so an
empty history raises (none) for the whole batch.  The returned vector is
the predicate chain alone; enrichment and dispatch run only when the
KNWEBHOOK environment variable is configured, and only over the accepted
alerts. -/
def kn_candidates (astro : Astro) (env : Env) (batch : List KNAlert) :
    Option (List Bool × List Message) := do
  let lastJds ← optionTraverse (fun a => (a.hist.map (fun h => h.jd)).getLast?) batch
  let lastFids ← optionTraverse (fun a => (a.hist.map (fun h => h.fid)).getLast?) batch
  let rows := ((batch.zip lastJds).zip lastFids).enum
  let f_kn := rows.map (fun r => knPredicate r.2.1.1 r.2.1.2)
  if env.KNWEBHOOK then
    let acceptedRows := rows.filter (fun r => knPredicate r.2.1.1 r.2.1.2)
    let msgs ← optionTraverse (fun r =>
      (knEnrichOne astro r.2.1.1 r.2.2).map
        (fun _ => Message.mk Channel.KNWEBHOOK r.1)) acceptedRows
    pure (f_kn, msgs)
  else
    pure (f_kn, [])

/-- Allow-list of the early supernova filter: keep_cds plus the two
supernova labels. -/
def keep_cds_sn : List String :=
  ["Unknown", "Candidate_SN*", "SN", "Transient", "Fail"] ++
    list_simbad_galaxies

/-- Early supernova filter early_sn_candidates_
(filter_early_sn_candidates/filter.py lines 66 to 97), per alert. -/
def early_sn_candidates_ (cdsxmatch : String)
    (snn_snia_vs_nonia snn_sn_vs_all rf_snia_vs_nonia : ℚ)
    (ndethist : ℤ) (drb classtar : ℚ) : Bool :=
  let snn1 := decide (snn_snia_vs_nonia > 0.5)
  let snn2 := decide (snn_sn_vs_all > 0.5)
  let active_learn := decide (rf_snia_vs_nonia > 0.5)
  let early_ndethist := decide (ndethist ≤ 20)
  let high_drb := decide (drb > 0.5)
  let high_classtar := decide (classtar > 0.4)
  let f_sn := (snn1 || snn2) && decide (cdsxmatch ∈ keep_cds_sn) &&
    high_drb && high_classtar
  early_ndethist && active_learn && f_sn

/-- Microlensing filter microlensing_candidates_
(filter_microlensing_candidates/filter.py lines 20 to 42), per alert. -/
def microlensing_candidates_ (ndethist : ℤ)
    (mulens_class_1 mulens_class_2 : String) : Bool :=
  let medium_ndethist := decide (ndethist < 100)
  decide (mulens_class_1 = "ML") && decide (mulens_class_2 = "ML") &&
    medium_ndethist

/-- An alert of the microlensing stream together with the generic quality
scores every alert of the survey carries; the filter itself only receives
ndethist and the two LIA classifications. -/
structure MLAlert where
  drb : ℚ
  classtar : ℚ
  ndethist : ℤ
  mulens_class_1 : String
  mulens_class_2 : String
deriving DecidableEq

/-- Verdict of the microlensing filter on a full alert record. -/
def microlensingVerdict (a : MLAlert) : Bool :=
  microlensing_candidates_ a.ndethist a.mulens_class_1 a.mulens_class_2

/-- Concrete oracle instantiation used for concrete runs: the corrected
magnitude is magpsf itself, the separation to a galaxy is the galaxy ra
field, every entry is within the coarse radius, log10 is the constant -2
and the galactic latitude is the alert dec. -/
def astro0 : Astro where
  dc_mag := fun _ magpsf sigmapsf _ _ _ _ => (magpsf, sigmapsf)
  sepRad := fun _ _ gra _ => gra
  within2deg := fun _ _ _ _ => true
  log10 := fun _ => -2
  galLatDeg := fun _ dec => dec

/-- Environment with every webhook configured, on a Friday. -/
def envAll : Env := ⟨true, true, true, true, 5⟩

/-- Environment with no webhook configured, on a Monday. -/
def envNone : Env := ⟨false, false, false, false, 1⟩

/-- Environment with only KNWEBHOOK configured, on a Monday. -/
def envKN : Env := ⟨true, false, false, false, 1⟩

/-- Catalog entry accepted under astro0 for an alert of corrected
magnitude -1: separation 1/200 with ang_dist 1, abs mag -16. -/
def g0 : GalaxyEntry := ⟨1/200, 0, 1, 0, 1, 0, 0, "G0"⟩

/-- Second accepted entry, strictly closer on the sky than g0. -/
def g1 : GalaxyEntry := ⟨1/400, 0, 1, 0, 1, 0, 1, "G1"⟩

/-- Alert passing the whole early filter under astro0 and catalog [g0]:
high scores, fresh detection, allow-listed label, not a solar-system
object, high galactic latitude, bright, in a DWF field. -/
def a0 : EKAlert :=
  ⟨"ZTF0", 1, 1, 0, 0, 1, "Unknown", 1, -1, 0, 0, 0, 0, "t", 0, 30, 0, 1525⟩

/-- Alert identical to a0 except at the early-detection boundary: the
observation time minus first-detection time is exactly 0.25 days. -/
def aBoundary : EKAlert :=
  ⟨"ZTF0", 1, 1, 0.25, 0, 1, "Unknown", 1, -1, 0, 0, 0, 0, "t", 0, 30, 0, 1525⟩

/-- Alert identical to a0 except its cross-match label is Star, which is
not in the allow-list. -/
def aStar : EKAlert :=
  ⟨"ZTF0", 1, 1, 0, 0, 1, "Star", 1, -1, 0, 0, 0, 0, "t", 0, 30, 0, 1525⟩

/-- Classifier-filter alert passing the predicate chain whose history has
a single (non-missing) measurement: enrichment raises on it. -/
def shortKN : KNAlert :=
  ⟨"ZTF1", 1, 0, 0, 0, 1, 1, 0, 1, "Unknown", 0, 0,
    [⟨0, 1, some 20, 0, 0, 0, 0, "t"⟩]⟩

/-- Classifier-filter alert passing the predicate chain with a history of
two non-missing measurements, one in each band. -/
def goodKN : KNAlert :=
  ⟨"ZTF2", 1, 0, 0, 0, 1, 1, 0, 1, "Unknown", 0, 0,
    [⟨0, 1, some 20, 0, 0, 0, 0, "t"⟩, ⟨1, 2, some 19, 0, 0, 0, 0, "t"⟩]⟩

/-- Classifier-filter alert with an empty history; it would be classified
false, but the last-element extraction raises first. -/
def emptyKN : KNAlert :=
  ⟨"ZTF3", 0, 0, 0, 0, 0, 0, 0, 0, "Star", 0, 0, []⟩

/-- A sequential Option map fails exactly when some element fails. -/
theorem optionTraverse_eq_none {α β : Type} (f : α → Option β)
    {l : List α} {a : α} (ha : a ∈ l) (hf : f a = none) :
    optionTraverse f l = none := by
  induction l with
  | nil => cases ha
  | cons x t ih =>
    rcases List.mem_cons.mp ha with rfl | ha
    · simp [optionTraverse, hf]
    · unfold optionTraverse
      cases f x with
      | none => rfl
      | some b => simp [Option.bind, ih ha]

/-- Every element produced by a successful sequential Option map comes
from some element of the input list. -/
theorem optionTraverse_mem {α β : Type} (f : α → Option β)
    {l : List α} {bs : List β} (h : optionTraverse f l = some bs)
    {b : β} (hb : b ∈ bs) : ∃ a ∈ l, f a = some b := by
  induction l generalizing bs with
  | nil =>
    simp [optionTraverse] at h
    subst h; cases hb
  | cons x t ih =>
    unfold optionTraverse at h
    cases hfx : f x with
    | none => rw [hfx] at h; cases h
    | some y =>
      rw [hfx] at h
      cases ht : optionTraverse f t with
      | none => rw [ht] at h; cases h
      | some ys =>
        rw [ht] at h
        simp [Option.bind] at h
        subst h
        rcases List.mem_cons.mp hb with rfl | hb
        · exact ⟨x, List.mem_cons_self x t, hfx⟩
        · obtain ⟨a, ha, hfa⟩ := ih ht hb
          exact ⟨a, List.mem_cons_of_mem x ha, hfa⟩

/-- Every message built for a candidate carries the index of that
candidate. -/
theorem mem_earlyKnMessagesFor_alertIdx (astro : Astro) (env : Env)
    (i : ℕ) (a : EKAlert) {m : Message}
    (hm : m ∈ earlyKnMessagesFor astro env i a) : m.alertIdx = i := by
  unfold earlyKnMessagesFor at hm
  simp only [List.mem_append] at hm
  rcases hm with ((h | h) | h) | h <;> (split at h <;> simp_all)

/-- Membership of the amateur-channel message among the messages built
for one candidate is exactly the amateur gate. -/
theorem ama_mem_earlyKnMessagesFor (astro : Astro) (env : Env)
    (i : ℕ) (a : EKAlert) :
    Message.mk Channel.AMA_GALAXIES i ∈ earlyKnMessagesFor astro env i a ↔
      (|astro.galLatDeg a.ra a.dec| > 20 ∧ ekMag astro a < 20 ∧
        env.utcIsoWeekday = 5 ∧ env.KNWEBHOOK_AMA_GALAXIES = true) := by
  unfold earlyKnMessagesFor
  simp only [List.mem_append]
  constructor
  · intro hm
    rcases hm with ((h | h) | h) | h <;> (split at h <;> simp_all)
  · intro hgate
    refine Or.inl (Or.inr ?_)
    have : (decide (|astro.galLatDeg a.ra a.dec| > 20) &&
        decide (ekMag astro a < 20) &&
        decide (env.utcIsoWeekday = 5) && env.KNWEBHOOK_AMA_GALAXIES) = true := by
      simp only [Bool.and_eq_true, decide_eq_true_eq]
      exact ⟨⟨⟨hgate.1, hgate.2.1⟩, hgate.2.2.1⟩, hgate.2.2.2⟩
    simp [this]


/-- Structure of a completed early-filter run: the verdict vector is the
per-alert verdict mapped over the batch, and the message list is the
per-candidate message lists concatenated over the final candidates in
batch order. -/
theorem early_run_some_spec (astro : Astro) (env : Env)
    (catalog : List GalaxyEntry) (batch : List EKAlert) {r : EKResult}
    (h : early_kn_candidates astro env catalog batch = some r) :
    r.verdict = batch.map (earlyKnVerdict astro catalog) ∧
    r.messages = (batch.enum.filter
        (fun p => earlyKnVerdict astro catalog p.2)).flatMap
      (fun p => earlyKnMessagesFor astro env p.1 p.2) := by
  unfold early_kn_candidates at h
  by_cases hb : batch.isEmpty
  · simp [hb] at h
  · by_cases hp : (batch.map earlyKnPredicate).any id
    · by_cases hc : (batch.enum.filter
          (fun p => earlyKnVerdict astro catalog p.2)).all
            (fun p => p.2.fid == 1 || p.2.fid == 2)
      · simp only [hb, hp, hc, Bool.false_eq_true, if_false, if_true,
          Option.some_inj] at h
        subst h
        exact ⟨rfl, rfl⟩
      · simp [hb, hp, hc] at h
    · have hp2 : (batch.map earlyKnPredicate).any id = false :=
        Bool.eq_false_iff.mpr hp
      have hall : ∀ a ∈ batch, earlyKnPredicate a = false := by
        intro a ha
        have := (List.any_eq_false).mp hp2 (earlyKnPredicate a)
          (List.mem_map_of_mem _ ha)
        simpa using this
      simp only [hb, hp2, Bool.false_eq_true, if_false,
        Option.some_inj] at h
      subst h
      constructor
      · refine List.map_congr_left ?_
        intro a ha
        simp [earlyKnVerdict, hall a ha]
      · have hnil : batch.enum.filter
            (fun p => earlyKnVerdict astro catalog p.2) = [] := by
          refine List.filter_eq_nil_iff.mpr ?_
          intro p hp2m
          have hmem : p.2 ∈ batch :=
            List.get?_mem (List.mem_enum_iff_get?.mp hp2m)
          simp [earlyKnVerdict, hall p.2 hmem]
        simp [hnil]

/-- Structure of a completed classifier-filter run: the last history
elements of every alert were extracted, the returned vector is the
predicate chain mapped over the indexed rows, and every message reports
an accepted row on the KNWEBHOOK channel. -/
theorem kn_run_some_spec (astro : Astro) (env : Env) (batch : List KNAlert)
    {p : List Bool × List Message}
    (h : kn_candidates astro env batch = some p) :
    ∃ lastJds lastFids,
      optionTraverse (fun a => (a.hist.map (fun e => e.jd)).getLast?) batch
          = some lastJds ∧
      optionTraverse (fun a => (a.hist.map (fun e => e.fid)).getLast?) batch
          = some lastFids ∧
      p.1 = (((batch.zip lastJds).zip lastFids).enum).map
        (fun r => knPredicate r.2.1.1 r.2.1.2) ∧
      ∀ m ∈ p.2, ∃ r ∈ ((batch.zip lastJds).zip lastFids).enum,
        knPredicate r.2.1.1 r.2.1.2 = true ∧
        m = Message.mk Channel.KNWEBHOOK r.1 := by
  unfold kn_candidates at h
  cases hJ : optionTraverse (fun a => (a.hist.map (fun e => e.jd)).getLast?)
      batch with
  | none => rw [hJ] at h; cases h
  | some lastJds =>
    rw [hJ] at h
    cases hF : optionTraverse
        (fun a => (a.hist.map (fun e => e.fid)).getLast?) batch with
    | none => rw [hF] at h; cases h
    | some lastFids =>
      rw [hF] at h
      simp only [Option.pure_def, Option.bind_eq_bind, Option.some_bind] at h
      refine ⟨lastJds, lastFids, rfl, rfl, ?_⟩
      by_cases he : env.KNWEBHOOK
      · simp only [he, if_true] at h
        cases hM : optionTraverse (fun r =>
            (knEnrichOne astro r.2.1.1 r.2.2).map
              (fun _ => Message.mk Channel.KNWEBHOOK r.1))
            ((((batch.zip lastJds).zip lastFids).enum).filter
              (fun r => knPredicate r.2.1.1 r.2.1.2)) with
        | none => rw [hM] at h; cases h
        | some msgs =>
          rw [hM] at h
          simp only [Option.some_bind, Option.some_inj] at h
          subst h
          refine ⟨rfl, ?_⟩
          intro m hm
          obtain ⟨r, hr, hgr⟩ := optionTraverse_mem _ hM hm
          obtain ⟨hrmem, hrpred⟩ := List.mem_filter.mp hr
          obtain ⟨e, _, hme⟩ := Option.map_eq_some'.mp hgr
          exact ⟨r, hrmem, hrpred, hme.symm⟩
      · simp only [he, Bool.false_eq_true, if_false, Option.some_inj] at h
        subst h
        exact ⟨rfl, by intro m hm; cases hm⟩

/-- The predicate chain of the early filter, spelt out. -/
theorem earlyKnPredicate_iff (a : EKAlert) :
    earlyKnPredicate a = true ↔
      (a.drb > 0.5 ∧ a.classtar > 0.4 ∧ a.jd - a.jdstarthist < 0.25 ∧
        a.cdsxmatch ∈ keep_cds ∧ a.roid ≠ 3) := by
  simp [earlyKnPredicate, and_assoc]

/-- C1: an alert passes the predicate-chain stage of the score-free early
kilonova filter iff real/bogus > 0.5, morphology score > 0.4, observation
time minus first-detection time < 0.25 days, the cross-match label is in
the allow-list of Unknown, Transient, Fail plus the sixteen galaxy-type
labels, and the solar-system flag roid differs from the known-object
value 3; the comparisons are strict, so a time difference of exactly
0.25 days is excluded. -/
theorem claim_C1 :
    (∀ a : EKAlert, earlyKnPredicate a = true ↔
      (a.drb > 0.5 ∧ a.classtar > 0.4 ∧ a.jd - a.jdstarthist < 0.25 ∧
        (a.cdsxmatch ∈ (["Unknown", "Transient", "Fail"] : List String) ∨
          a.cdsxmatch ∈ list_simbad_galaxies) ∧
        a.roid ≠ 3)) ∧
    list_simbad_galaxies.length = 16 ∧
    (∀ a : EKAlert, a.jd - a.jdstarthist = 0.25 →
      earlyKnPredicate a = false) := by
  refine ⟨?_, rfl, ?_⟩
  · intro a
    rw [earlyKnPredicate_iff]
    simp [keep_cds, List.mem_append, or_assoc]
  · intro a h
    rw [Bool.eq_false_iff]
    intro htrue
    have hlt := ((earlyKnPredicate_iff a).mp htrue).2.2.1
    rw [h] at hlt
    exact lt_irrefl _ hlt

/-- Witness run for C1: an alert exactly at the 0.25-day boundary is
excluded. -/
theorem claim_C1_witness :
    aBoundary.jd - aBoundary.jdstarthist = 0.25 ∧
      earlyKnPredicate aBoundary = false :=
  ⟨by with_unfolding_all decide, claim_C1.2.2 aBoundary (by with_unfolding_all decide)⟩

/-- C2: for an alert that passed the predicate chain, the final verdict
of the early filter is true iff some catalog entry inside the coarse
two-degree query satisfies the acceptance test: separation in radians
below 0.01 over its angular-diameter distance, and absolute magnitude
mag - 25 - 5 log10(lum_dist) strictly between -17 and -15; with no
accepted entry the verdict is overridden to false. -/
theorem claim_C2 (astro : Astro) (catalog : List GalaxyEntry) (a : EKAlert)
    (h : earlyKnPredicate a = true) :
    earlyKnVerdict astro catalog a = true ↔
      ∃ p ∈ nearbyIdx astro catalog a.ra a.dec,
        astro.sepRad a.ra a.dec p.2.ra p.2.dec < 0.01 / p.2.ang_dist ∧
        ekMag astro a - 25 - 5 * astro.log10 p.2.lum_dist > -17 ∧
        ekMag astro a - 25 - 5 * astro.log10 p.2.lum_dist < -15 := by
  unfold earlyKnVerdict crossMatch
  rw [h]
  simp only [Bool.true_and, List.find?_isSome, accept, Bool.and_eq_true,
    decide_eq_true_eq, and_assoc]

/-- Witness run for C2: a concrete passing alert and a one-entry catalog
that accepts it. -/
theorem claim_C2_witness :
    earlyKnPredicate a0 = true ∧
      (earlyKnVerdict astro0 [g0] a0 = true ↔
        ∃ p ∈ nearbyIdx astro0 [g0] a0.ra a0.dec,
          astro0.sepRad a0.ra a0.dec p.2.ra p.2.dec < 0.01 / p.2.ang_dist ∧
          ekMag astro0 a0 - 25 - 5 * astro0.log10 p.2.lum_dist > -17 ∧
          ekMag astro0 a0 - 25 - 5 * astro0.log10 p.2.lum_dist < -15) :=
  ⟨by with_unfolding_all decide, claim_C2 astro0 [g0] a0 (by with_unfolding_all decide)⟩

/-- C6: the host selected by the cross-match stage is the first accepted
entry in catalog iteration order, and the concrete run shows it need not
be the entry nearest in angular separation: with catalog [g0, g1] both
entries are accepted, g0 is selected, yet g1 is strictly closer. -/
theorem claim_C6 :
    (∀ (astro : Astro) (catalog : List GalaxyEntry) (mag ra dec : ℚ),
      crossMatch astro catalog mag ra dec =
        ((nearbyIdx astro catalog ra dec).filter
          (fun p => accept astro mag ra dec p.2)).head?) ∧
    crossMatch astro0 [g0, g1] (-1) 0 0 = some (0, g0) ∧
    (1, g1) ∈ nearbyIdx astro0 [g0, g1] 0 0 ∧
    accept astro0 (-1) 0 0 g1 = true ∧
    astro0.sepRad 0 0 g1.ra g1.dec < astro0.sepRad 0 0 g0.ra g0.dec := by
  refine ⟨?_, by with_unfolding_all decide, by with_unfolding_all decide,
    by with_unfolding_all decide, by with_unfolding_all decide⟩
  intro astro catalog mag ra dec
  unfold crossMatch
  exact (List.filter_head? _ _).symm

/-- C3: in both kilonova filters, every dispatched message reports an
alert whose returned verdict is true; an alert with verdict false never
reaches the dispatch stage on any channel. -/
theorem claim_C3 :
    (∀ (astro : Astro) (env : Env) (catalog : List GalaxyEntry)
        (batch : List EKAlert) (r : EKResult) (m : Message),
      early_kn_candidates astro env catalog batch = some r →
      m ∈ r.messages → r.verdict.get? m.alertIdx = some true) ∧
    (∀ (astro : Astro) (env : Env) (batch : List KNAlert)
        (p : List Bool × List Message) (m : Message),
      kn_candidates astro env batch = some p →
      m ∈ p.2 → p.1.get? m.alertIdx = some true) := by
  constructor
  · intro astro env catalog batch r m hr hm
    obtain ⟨hv, hmsg⟩ := early_run_some_spec astro env catalog batch hr
    rw [hmsg, List.mem_flatMap] at hm
    obtain ⟨p, hp, hmp⟩ := hm
    obtain ⟨hpe, hpv⟩ := List.mem_filter.mp hp
    have hidx : m.alertIdx = p.1 :=
      mem_earlyKnMessagesFor_alertIdx astro env p.1 p.2 hmp
    have hget : batch.get? p.1 = some p.2 := List.mem_enum_iff_get?.mp hpe
    rw [hv, hidx, List.get?_map, hget, Option.map_some']
    have : earlyKnVerdict astro catalog p.2 = true := hpv
    rw [this]
  · intro astro env batch p m hp hm
    obtain ⟨lastJds, lastFids, hJ, hF, hfst, hmsgs⟩ :=
      kn_run_some_spec astro env batch hp
    obtain ⟨r, hrmem, hrpred, hmeq⟩ := hmsgs m hm
    have hget : ((batch.zip lastJds).zip lastFids).get? r.1 = some r.2 :=
      List.mem_enum_iff_get?.mp hrmem
    have hidx : m.alertIdx = r.1 := by rw [hmeq]
    rw [hfst, hidx, List.get?_map, List.get?_enum, hget, Option.map_some',
      Option.map_some']
    have : knPredicate r.2.1.1 r.2.1.2 = true := hrpred
    exact congrArg some this

/-- Witness run for C3: a concrete early-filter run that dispatches a
message, whose alert indeed has verdict true. -/
theorem claim_C3_witness :
    early_kn_candidates astro0 envKN [g0] [a0] =
        some ⟨[true], [Message.mk Channel.KNWEBHOOK 0], 1⟩ ∧
      (Message.mk Channel.KNWEBHOOK 0 ∈
        (⟨[true], [Message.mk Channel.KNWEBHOOK 0], 1⟩ : EKResult).messages) ∧
      ([true] : List Bool).get? 0 = some true :=
  ⟨by with_unfolding_all decide, by decide,
    claim_C3.1 astro0 envKN [g0] [a0] ⟨[true], [Message.mk Channel.KNWEBHOOK 0], 1⟩
      (Message.mk Channel.KNWEBHOOK 0)
      (by with_unfolding_all decide) (by decide)⟩

/-- C7: for a final-accepted candidate of the early filter, a message
goes out on the amateur-observer channel iff the absolute galactic
latitude exceeds 20 degrees, the corrected magnitude is below 20, the
wall-clock UTC iso weekday is Friday (5) and the channel endpoint is
configured; a candidate at galactic latitude 5 degrees never receives
one regardless of weekday. -/
theorem claim_C7 (astro : Astro) (env : Env) (catalog : List GalaxyEntry)
    (batch : List EKAlert) (r : EKResult) (i : ℕ) (a : EKAlert)
    (hr : early_kn_candidates astro env catalog batch = some r)
    (hi : batch.get? i = some a)
    (hv : earlyKnVerdict astro catalog a = true) :
    (Message.mk Channel.AMA_GALAXIES i ∈ r.messages ↔
      (|astro.galLatDeg a.ra a.dec| > 20 ∧ ekMag astro a < 20 ∧
        env.utcIsoWeekday = 5 ∧ env.KNWEBHOOK_AMA_GALAXIES = true)) ∧
    (astro.galLatDeg a.ra a.dec = 5 →
      Message.mk Channel.AMA_GALAXIES i ∉ r.messages) := by
  obtain ⟨hvspec, hmsg⟩ := early_run_some_spec astro env catalog batch hr
  have hiff : Message.mk Channel.AMA_GALAXIES i ∈ r.messages ↔
      (|astro.galLatDeg a.ra a.dec| > 20 ∧ ekMag astro a < 20 ∧
        env.utcIsoWeekday = 5 ∧ env.KNWEBHOOK_AMA_GALAXIES = true) := by
    rw [hmsg, List.mem_flatMap]
    constructor
    · rintro ⟨p, hp, hmp⟩
      obtain ⟨hpe, hpv⟩ := List.mem_filter.mp hp
      have hidx : i = p.1 :=
        mem_earlyKnMessagesFor_alertIdx astro env p.1 p.2 hmp
      have hget : batch.get? p.1 = some p.2 := List.mem_enum_iff_get?.mp hpe
      rw [← hidx, hi] at hget
      have hpa : p.2 = a := (Option.some_inj.mp hget).symm
      rw [← hidx, hpa] at hmp
      exact (ama_mem_earlyKnMessagesFor astro env i a).mp hmp
    · intro hgate
      refine ⟨(i, a), List.mem_filter.mpr ⟨?_, ?_⟩, ?_⟩
      · exact List.mk_mem_enum_iff_get?.mpr hi
      · exact hv
      · exact (ama_mem_earlyKnMessagesFor astro env i a).mpr hgate
  refine ⟨hiff, ?_⟩
  intro h5 hmem
  have hg := (hiff.mp hmem).1
  rw [h5] at hg
  have : ¬(|(5 : ℚ)| > 20) := by norm_num
  exact this hg

/-- Witness run for C7: a concrete accepted candidate at galactic
latitude 30 on a Friday with every channel configured receives the
amateur-channel message. -/
theorem claim_C7_witness :
    (Message.mk Channel.AMA_GALAXIES 0 ∈
        (⟨[true], [Message.mk Channel.KNWEBHOOK 0,
          Message.mk Channel.KNWEBHOOK_FINK 0,
          Message.mk Channel.AMA_GALAXIES 0,
          Message.mk Channel.DWF 0], 1⟩ : EKResult).messages ↔
      (|astro0.galLatDeg a0.ra a0.dec| > 20 ∧ ekMag astro0 a0 < 20 ∧
        envAll.utcIsoWeekday = 5 ∧ envAll.KNWEBHOOK_AMA_GALAXIES = true)) ∧
    (astro0.galLatDeg a0.ra a0.dec = 5 →
      Message.mk Channel.AMA_GALAXIES 0 ∉
        (⟨[true], [Message.mk Channel.KNWEBHOOK 0,
          Message.mk Channel.KNWEBHOOK_FINK 0,
          Message.mk Channel.AMA_GALAXIES 0,
          Message.mk Channel.DWF 0], 1⟩ : EKResult).messages) :=
  claim_C7 astro0 envAll [g0] [a0]
    ⟨[true], [Message.mk Channel.KNWEBHOOK 0,
      Message.mk Channel.KNWEBHOOK_FINK 0,
      Message.mk Channel.AMA_GALAXIES 0,
      Message.mk Channel.DWF 0], 1⟩ 0 a0
    (by with_unfolding_all decide) (by decide) (by with_unfolding_all decide)

/-- C4 counterexample: for the classifier filter, configuring the
KNWEBHOOK environment variable changes the returned value on the same
batch: with it the run raises (the accepted candidate has a one-entry
history and enrichment fails), without it the verdict vector is
returned. -/
theorem claim_C4_counterexample :
    kn_candidates astro0 envKN [shortKN] = none ∧
      kn_candidates astro0 envNone [shortKN] = some ([true], []) := by
  with_unfolding_all decide

/-- C4 (amended): for the early filter the returned verdict vector, and
whether the run raises, are independent of the environment and of the
weekday; for the classifier filter the verdict vector is independent of
the environment whenever the call returns one, but configuring KNWEBHOOK
can turn a returning call into a raising one. -/
theorem claim_C4 :
    (∀ (astro : Astro) (catalog : List GalaxyEntry) (batch : List EKAlert)
        (env1 env2 : Env),
      (early_kn_candidates astro env1 catalog batch).map EKResult.verdict =
        (early_kn_candidates astro env2 catalog batch).map EKResult.verdict) ∧
    (∀ (astro : Astro) (batch : List KNAlert) (env1 env2 : Env)
        (p1 p2 : List Bool × List Message),
      kn_candidates astro env1 batch = some p1 →
      kn_candidates astro env2 batch = some p2 → p1.1 = p2.1) := by
  constructor
  · intro astro catalog batch env1 env2
    unfold early_kn_candidates
    by_cases hb : batch.isEmpty
    · simp [hb]
    · by_cases hp : (batch.map earlyKnPredicate).any id
      · by_cases hc : (batch.enum.filter
            (fun p => earlyKnVerdict astro catalog p.2)).all
              (fun p => p.2.fid == 1 || p.2.fid == 2)
        · simp [hb, hp, hc]
        · simp [hb, hp, hc]
      · simp [hb, hp]
  · intro astro batch env1 env2 p1 p2 h1 h2
    obtain ⟨j1, f1, hJ1, hF1, hfst1, _⟩ := kn_run_some_spec astro env1 batch h1
    obtain ⟨j2, f2, hJ2, hF2, hfst2, _⟩ := kn_run_some_spec astro env2 batch h2
    rw [hJ1] at hJ2
    rw [hF1] at hF2
    obtain rfl : j1 = j2 := Option.some_inj.mp hJ2
    obtain rfl : f1 = f2 := Option.some_inj.mp hF2
    rw [hfst1, hfst2]

/-- Witness run for C4: the same classifier batch under two different
environments returns the same verdict vector. -/
theorem claim_C4_witness :
    kn_candidates astro0 envKN [goodKN] =
        some ([true], [Message.mk Channel.KNWEBHOOK 0]) ∧
      kn_candidates astro0 envNone [goodKN] = some ([true], []) ∧
      (([true], [Message.mk Channel.KNWEBHOOK 0]) :
          List Bool × List Message).1 =
        (([true], []) : List Bool × List Message).1 :=
  ⟨by with_unfolding_all decide, by with_unfolding_all decide,
    claim_C4.2 astro0 [goodKN] envKN envNone _ _
      (by with_unfolding_all decide) (by with_unfolding_all decide)⟩

/-- C5 counterexample: the microlensing filter never examines the
real/bogus or morphology scores, so an alert with real/bogus 0 is still
classified true. -/
theorem claim_C5_counterexample :
    microlensingVerdict ⟨0, 0, 5, "ML", "ML"⟩ = true ∧
      ¬(MLAlert.drb ⟨0, 0, 5, "ML", "ML"⟩ > 0.5) := by
  with_unfolding_all decide

/-- C5 (amended): for the score-free early kilonova, classifier-score
kilonova and early supernova filters a true verdict implies real/bogus
above 0.5 and morphology score above 0.4; the microlensing filter does
not enforce this. -/
theorem claim_C5 :
    (∀ (astro : Astro) (catalog : List GalaxyEntry) (a : EKAlert),
      earlyKnVerdict astro catalog a = true →
        a.drb > 0.5 ∧ a.classtar > 0.4) ∧
    (∀ (a : KNAlert) (jd : ℚ),
      knPredicate a jd = true → a.drb > 0.5 ∧ a.classtar > 0.4) ∧
    (∀ (cdsxmatch : String) (snn1 snn2 rf : ℚ) (ndethist : ℤ)
        (drb classtar : ℚ),
      early_sn_candidates_ cdsxmatch snn1 snn2 rf ndethist drb classtar
          = true → drb > 0.5 ∧ classtar > 0.4) := by
  refine ⟨?_, ?_, ?_⟩
  · intro astro catalog a h
    rw [earlyKnVerdict, Bool.and_eq_true] at h
    have := (earlyKnPredicate_iff a).mp h.1
    exact ⟨this.1, this.2.1⟩
  · intro a jd h
    simp only [knPredicate, Bool.and_eq_true, decide_eq_true_eq] at h
    exact ⟨h.1.1.1.1.2, h.1.1.1.2⟩
  · intro cdsxmatch snn1 snn2 rf ndethist drb classtar h
    simp only [early_sn_candidates_, Bool.and_eq_true,
      decide_eq_true_eq] at h
    exact ⟨h.2.1.2, h.2.2⟩

/-- Witness runs for C5: concrete true verdicts of the three filters
with their score bounds. -/
theorem claim_C5_witness :
    (earlyKnVerdict astro0 [g0] a0 = true ∧
      a0.drb > 0.5 ∧ a0.classtar > 0.4) ∧
    (knPredicate goodKN 1 = true ∧
      goodKN.drb > 0.5 ∧ goodKN.classtar > 0.4) ∧
    (early_sn_candidates_ "SN" 1 1 1 1 1 1 = true ∧
      (1 : ℚ) > 0.5 ∧ (1 : ℚ) > 0.4) :=
  ⟨⟨by with_unfolding_all decide,
      claim_C5.1 astro0 [g0] a0 (by with_unfolding_all decide)⟩,
    ⟨by with_unfolding_all decide,
      claim_C5.2.1 goodKN 1 (by with_unfolding_all decide)⟩,
    ⟨by with_unfolding_all decide,
      claim_C5.2.2 "SN" 1 1 1 1 1 1 (by with_unfolding_all decide)⟩⟩

/-- A list has no last-two pair exactly when it has fewer than two
elements. -/
theorem lastTwo_eq_none {α : Type} (l : List α) :
    lastTwo l = none ↔ l.length < 2 := by
  unfold lastTwo
  rw [← List.length_reverse]
  cases l.reverse with
  | nil => simp
  | cons a t =>
    cases t with
    | nil => simp
    | cons b t2 => simp

/-- Modelled from the spec wording, for comparison with bandData: the
photometric rate for one band is the difference of the corrected
magnitudes of the two most recent same-band history entries with
non-missing photometry, over their time difference, defined only when at
least two such entries exist. -/
def specRate (astro : Astro) (hist : List HistEntry) (filt : ℤ) :
    Option ℚ :=
  match ((maskNotNone hist).filter (fun p => p.2.fid == filt)).reverse with
  | p1 :: p2 :: _ =>
      some (((astro.dc_mag p1.2.fid p1.1 p1.2.sigmapsf p1.2.magnr
            p1.2.sigmagnr p1.2.magzpsci p1.2.isdiffpos).1 -
          (astro.dc_mag p2.2.fid p2.1 p2.2.sigmapsf p2.2.magnr
            p2.2.sigmagnr p2.2.magzpsci p2.2.isdiffpos).1) /
        (p1.2.jd - p2.2.jd))
  | _ => none

/-- The per-band enrichment fails exactly on an empty band, and on
success its rate agrees with the spec-side rate. -/
theorem bandData_spec (astro : Astro) (hist : List HistEntry) (filt : ℤ) :
    (bandData astro (maskNotNone hist) filt = none ↔
      (maskNotNone hist).filter (fun p => p.2.fid == filt) = []) ∧
    (∀ m er rt,
      bandData astro (maskNotNone hist) filt = some (m, er, rt) →
        rt = specRate astro hist filt) := by
  unfold bandData specRate
  dsimp only
  set bl := (maskNotNone hist).filter (fun p => p.2.fid == filt) with hbl
  set F := fun p : ℚ × HistEntry =>
    astro.dc_mag p.2.fid p.1 p.2.sigmapsf p.2.magnr p.2.sigmagnr
      p.2.magzpsci p.2.isdiffpos with hF
  have hmapF : (bl.map F).reverse = bl.reverse.map F :=
    (List.map_reverse F bl).symm
  have hmapJ : (bl.map (fun p => p.2.jd)).reverse =
      bl.reverse.map (fun p => p.2.jd) :=
    (List.map_reverse _ bl).symm
  have hblrev : bl = bl.reverse.reverse := (List.reverse_reverse bl).symm
  cases hrev : bl.reverse with
  | nil =>
    have hnil : bl = [] := by rw [hblrev, hrev, List.reverse_nil]
    rw [hnil]
    simp
  | cons p1 t =>
    have hne : bl ≠ [] := by
      intro h
      rw [h, List.reverse_nil] at hrev
      cases hrev
    have hlast : (bl.map F).getLast? = some (F p1) := by
      rw [List.getLast?_eq_head?_reverse, hmapF, hrev]
      rfl
    rw [hlast]
    simp only [Option.pure_def, Option.bind_eq_bind, Option.some_bind]
    refine ⟨by simp [hne], ?_⟩
    intro m er rt hsome
    have hrt : rt = (match (bl.map F).reverse,
        (bl.map (fun p => p.2.jd)).reverse with
      | mlast :: mprev :: _, jlast :: jprev :: _ =>
          some ((mlast.1 - mprev.1) / (jlast - jprev))
      | _, _ => none) := by
      have := (Option.some_inj.mp hsome)
      have h3 := congrArg (fun q : ℚ × ℚ × Option ℚ => q.2.2) this
      exact h3.symm
    rw [hrt, hmapF, hmapJ, hrev]
    cases t with
    | nil => rfl
    | cons p2 t2 => rfl

/-- C8 (amended): the enrichment of the classifier filter masks
missing-photometry history entries out of the magnitude and rate
computations, and on success the photometric rate is computed strictly
between the two most recent same-band non-missing measurements; however
it raises (returns none) exactly when the masked history has fewer than
two entries, or either band has no non-missing measurement, or the last
filter id is outside the g and r bands. -/
theorem claim_C8 (astro : Astro) (a : KNAlert) (lastFid : ℤ) :
    (knEnrichOne astro a lastFid = none ↔
      ((maskNotNone a.hist).length < 2 ∨
        (maskNotNone a.hist).filter (fun p => p.2.fid == 1) = [] ∨
        (maskNotNone a.hist).filter (fun p => p.2.fid == 2) = [] ∨
        (lastFid ≠ 1 ∧ lastFid ≠ 2))) ∧
    (∀ e, knEnrichOne astro a lastFid = some e →
      e.rate1 = specRate astro a.hist 1 ∧
      e.rate2 = specRate astro a.hist 2) := by
  unfold knEnrichOne
  dsimp only
  simp only [Option.pure_def, Option.bind_eq_bind]
  cases hJ : lastTwo ((maskNotNone a.hist).map (fun p => p.2.jd)) with
  | none =>
    have hlen : (maskNotNone a.hist).length < 2 := by
      have := (lastTwo_eq_none _).mp hJ
      simpa using this
    exact ⟨by simp [hlen], by intro e he; simp at he⟩
  | some jds =>
    have hlen2 : ¬((maskNotNone a.hist).length < 2) := by
      intro hl
      have : lastTwo ((maskNotNone a.hist).map (fun p => p.2.jd)) = none :=
        (lastTwo_eq_none _).mpr (by simpa using hl)
      rw [this] at hJ
      cases hJ
    simp only [Option.some_bind]
    cases h1 : bandData astro (maskNotNone a.hist) 1 with
    | none =>
      have hb1 : (maskNotNone a.hist).filter (fun p => p.2.fid == 1) = [] :=
        (bandData_spec astro a.hist 1).1.mp h1
      exact ⟨by simp [hb1], by intro e he; simp at he⟩
    | some b1 =>
      simp only [Option.some_bind]
      cases h2 : bandData astro (maskNotNone a.hist) 2 with
      | none =>
        have hb2 : (maskNotNone a.hist).filter (fun p => p.2.fid == 2)
            = [] := (bandData_spec astro a.hist 2).1.mp h2
        exact ⟨by simp [hb2], by intro e he; simp at he⟩
      | some b2 =>
        simp only [Option.some_bind]
        have hb1ne : ¬((maskNotNone a.hist).filter
            (fun p => p.2.fid == 1) = []) := by
          intro hnil
          have := (bandData_spec astro a.hist 1).1.mpr hnil
          rw [h1] at this
          cases this
        have hb2ne : ¬((maskNotNone a.hist).filter
            (fun p => p.2.fid == 2) = []) := by
          intro hnil
          have := (bandData_spec astro a.hist 2).1.mpr hnil
          rw [h2] at this
          cases this
        by_cases hf : (lastFid == 1 || lastFid == 2) = true
        · constructor
          · simp only [hf, if_true]
            refine iff_of_false (by simp) ?_
            intro hrhs
            rcases hrhs with h | h | h | ⟨hn1, hn2⟩
            · exact hlen2 h
            · exact hb1ne h
            · exact hb2ne h
            · have hor : lastFid = 1 ∨ lastFid = 2 := by simpa using hf
              rcases hor with h | h
              · exact hn1 h
              · exact hn2 h
          · intro e he
            simp only [hf, if_true, Option.some_inj] at he
            subst he
            constructor
            · exact (bandData_spec astro a.hist 1).2 b1.1 b1.2.1 b1.2.2 h1
            · exact (bandData_spec astro a.hist 2).2 b2.1 b2.2.1 b2.2.2 h2
        · have hf2 : (lastFid == 1 || lastFid == 2) = false :=
            Bool.eq_false_iff.mpr hf
          have hne1 : lastFid ≠ 1 := by
            intro h
            simp [h] at hf2
          have hne2 : lastFid ≠ 2 := by
            intro h
            simp [h] at hf2
          constructor
          · refine iff_of_true ?_ (Or.inr (Or.inr (Or.inr ⟨hne1, hne2⟩)))
            rw [hf2]
            rfl
          · intro e he
            rw [hf2] at he
            simp at he

/-- C8 counterexample: on a predicate-passing alert whose masked history
has a single entry the enrichment raises (none), so the computation does
not succeed for every number of non-missing entries; the full run with
KNWEBHOOK configured raises as well. -/
theorem claim_C8_counterexample :
    knPredicate shortKN 0 = true ∧
      (maskNotNone shortKN.hist).length = 1 ∧
      knEnrichOne astro0 shortKN 1 = none ∧
      kn_candidates astro0 envKN [shortKN] = none := by
  with_unfolding_all decide

/-- Witness run for C8: a two-entry history with one measurement per
band enriches successfully and both rates agree with the spec-side
rate. -/
theorem claim_C8_witness :
    knEnrichOne astro0 goodKN 2 =
        some ⟨1, 20, 0, none, 19, 0, none⟩ ∧
      ((⟨1, 20, 0, none, 19, 0, none⟩ : EnrichedKN).rate1 =
          specRate astro0 goodKN.hist 1 ∧
        (⟨1, 20, 0, none, 19, 0, none⟩ : EnrichedKN).rate2 =
          specRate astro0 goodKN.hist 2) :=
  ⟨by with_unfolding_all decide,
    (claim_C8 astro0 goodKN 2).2 ⟨1, 20, 0, none, 19, 0, none⟩
      (by with_unfolding_all decide)⟩

/-- C9 counterexample: the early filter reads the catalog file during
batch processing and only when some alert passes the predicate chain, so
the load is triggered by batch content rather than happening once at
startup: a one-alert passing batch performs one load, the same batch
with a disallowed label performs none. -/
theorem claim_C9_counterexample :
    (early_kn_candidates astro0 envNone [g0] [a0]).map
        EKResult.catalogLoads = some 1 ∧
      (early_kn_candidates astro0 envNone [g0] [aStar]).map
        EKResult.catalogLoads = some 0 := by
  with_unfolding_all decide

/-- C9 (amended): the early filter reads the mangrove catalog file once
per processed batch in which at least one alert passes the predicate
chain, and not at all in a batch where none does; the catalog data is
never mutated by the run. -/
theorem claim_C9 (astro : Astro) (env : Env) (catalog : List GalaxyEntry)
    (batch : List EKAlert) (r : EKResult)
    (h : early_kn_candidates astro env catalog batch = some r) :
    r.catalogLoads =
      if (batch.map earlyKnPredicate).any id then 1 else 0 := by
  unfold early_kn_candidates at h
  by_cases hb : batch.isEmpty
  · simp [hb] at h
  · by_cases hp : (batch.map earlyKnPredicate).any id
    · by_cases hc : (batch.enum.filter
          (fun p => earlyKnVerdict astro catalog p.2)).all
            (fun p => p.2.fid == 1 || p.2.fid == 2)
      · simp only [hb, hp, hc, Bool.false_eq_true, if_false, if_true,
          Option.some_inj] at h
        subst h
        simp [hp]
      · simp [hb, hp, hc] at h
    · have hp2 : (batch.map earlyKnPredicate).any id = false :=
        Bool.eq_false_iff.mpr hp
      simp only [hb, hp2, Bool.false_eq_true, if_false,
        Option.some_inj] at h
      subst h
      simp [hp2]

/-- Witness run for C9: the concrete passing batch loads the catalog
exactly once. -/
theorem claim_C9_witness :
    early_kn_candidates astro0 envNone [g0] [a0] =
        some ⟨[true], [], 1⟩ ∧
      (⟨[true], [], 1⟩ : EKResult).catalogLoads =
        (if ([a0].map earlyKnPredicate).any id then 1 else 0) :=
  ⟨by with_unfolding_all decide,
    claim_C9 astro0 envNone [g0] [a0] ⟨[true], [], 1⟩
      (by with_unfolding_all decide)⟩

/-- C10: the classifier filter extracts the last element of every alert
history before any predicate runs, so a batch containing any alert with
an empty history makes the whole call raise, whatever the environment
and whatever the other alerts. -/
theorem claim_C10 (astro : Astro) (env : Env) (batch : List KNAlert)
    (i : ℕ) (a : KNAlert) (hi : batch.get? i = some a)
    (he : a.hist = []) :
    kn_candidates astro env batch = none := by
  have hmem : a ∈ batch := List.get?_mem hi
  have hfail : ((a.hist.map (fun e => e.jd)).getLast? : Option ℚ) = none := by
    rw [he]
    rfl
  have htr : optionTraverse
      (fun a => (a.hist.map (fun e => e.jd)).getLast?) batch = none :=
    optionTraverse_eq_none _ hmem hfail
  unfold kn_candidates
  rw [htr]
  rfl

/-- Witness run for C10: a batch holding a healthy alert and an
empty-history alert raises. -/
theorem claim_C10_witness :
    ([goodKN, emptyKN].get? 1 = some emptyKN) ∧
      emptyKN.hist = [] ∧
      kn_candidates astro0 envKN [goodKN, emptyKN] = none :=
  ⟨by decide, by decide,
    claim_C10 astro0 envKN [goodKN, emptyKN] 1 emptyKN
      (by decide) (by decide)⟩
